import Mathlib

/-!
Verification of the financial feasibility engine (`perform_calculations` in
`app.py`). The engine is pure arithmetic over two static rate tables; we
embed it over `ℚ` (exact arithmetic) with the per-year loops written as
structural recursions that mirror the Python loop bodies line by line.
-/

/-- Industry keys of `SECTOR_RATIOS`. -/
inductive Industry
  | retail
  | services
  | industry
deriving DecidableEq, Repr

/-- Region keys of `TAX_ZONES`. -/
inductive Region
  | eu
  | us
  | asia
  | latam
  | afr
deriving DecidableEq, Repr

/-- The `margin` entry of `SECTOR_RATIOS` for an industry. -/
def marginRatio : Industry → ℚ
  | .retail => 0.40
  | .services => 0.95
  | .industry => 0.50

/-- The `stock_need` entry of `SECTOR_RATIOS` for an industry. -/
def stockNeed : Industry → ℚ
  | .retail => 0.15
  | .services => 0.0
  | .industry => 0.20

/-- The `salary_tax` entry of `TAX_ZONES` for a region. -/
def salaryTax : Region → ℚ
  | .eu => 0.85
  | .us => 0.25
  | .asia => 0.20
  | .latam => 0.60
  | .afr => 0.15

/-- The `corp_tax` entry of `TAX_ZONES` for a region. -/
def corpTax : Region → ℚ
  | .eu => 0.25
  | .us => 0.21
  | .asia => 0.17
  | .latam => 0.34
  | .afr => 0.30

/-- `salary_multiplier = 1 + salary_tax_rate`. -/
def salary_multiplier (region : Region) : ℚ := 1 + salaryTax region

/-- `annual_amortization = investment / 5`. -/
def annual_amortization (investment : ℚ) : ℚ := investment / 5

/-- `total_salary_cost_monthly = (owner_salary * salary_multiplier) + (nb_emp * emp_salary * salary_multiplier)`. -/
def total_salary_cost_monthly (owner_salary nb_emp emp_salary mult : ℚ) : ℚ :=
  owner_salary * mult + nb_emp * emp_salary * mult

/-- `rent_monthly = rent * 1.2`. -/
def rent_monthly (rent : ℚ) : ℚ := rent * 1.2

/-- `total_yearly_fixed_costs = (total_salary_cost_monthly + rent_monthly) * 12 + annual_amortization`. -/
def total_yearly_fixed_costs (salary_monthly rent_m amort : ℚ) : ℚ :=
  (salary_monthly + rent_m) * 12 + amort

/-- `yearly_breakeven_turnover = total_yearly_fixed_costs / margin_ratio`. -/
def yearly_breakeven_turnover (fixed_costs margin : ℚ) : ℚ := fixed_costs / margin

/-- The local variables of one iteration of the scenario loop (PART A of
`perform_calculations`): turnover, EBIT, tax, net profit of the year and the
cumulative cash after the year. -/
structure ScenYear where
  turnover : ℚ
  ebit : ℚ
  tax : ℚ
  net_profit : ℚ
  cumulative_cash : ℚ
deriving DecidableEq, Repr, Inhabited

/-- The scenario loop of PART A. `curr` and `cash` are the loop-carried
`curr_turnover` and `cumulative_cash`; `first` is true on the first
iteration (`i = 0`), where the growth rate is not applied. -/
def scenarioYears (rate margin fixed corp amort : ℚ) :
    Nat → Bool → ℚ → ℚ → List ScenYear
  | 0, _, _, _ => []
  | n + 1, first, curr, cash =>
    let curr := if first then curr else curr * rate
    let gross_margin := curr * margin
    let ebit := gross_margin - fixed
    let tax := if ebit > 0 then ebit * corp else 0
    let net_profit := ebit - tax
    let cash_flow_year := net_profit + amort
    let cash := cash + cash_flow_year
    { turnover := curr, ebit := ebit, tax := tax,
      net_profit := net_profit, cumulative_cash := cash } ::
      scenarioYears rate margin fixed corp amort n false curr cash

/-- One element of `graph_data`: the scenario name with its `p_list` and
`cash_list`. -/
structure ScenarioResult where
  name : String
  profit : List ℚ
  cash : List ℚ
deriving DecidableEq, Repr, Inhabited

/-- The `scenarios` dict, in insertion order. -/
def scenariosList : List (String × ℚ) :=
  [("Stagnation", 1.0), ("Growth (+5%)", 1.05), ("Recession (-5%)", 0.95)]

/-- One row of the detailed statement table (PART B). -/
structure StatementRow where
  turnover : ℚ
  cogs : ℚ
  gross_margin : ℚ
  personnel : ℚ
  rent_charges : ℚ
  ebitda : ℚ
  amortization : ℚ
  ebit : ℚ
  tax : ℚ
  net_profit : ℚ
  cash_position : ℚ
  net_assets : ℚ
deriving DecidableEq, Repr, Inhabited

/-- The table loop of PART B. `curr_turnover` is set to `base_turnover`
before the loop and never modified inside it; `cash` and `nfa` are the
loop-carried `cumulative_cash` and `net_fixed_assets`. -/
def tableRows (base margin salary_monthly rent_m amort corp : ℚ) :
    Nat → ℚ → ℚ → List StatementRow
  | 0, _, _ => []
  | n + 1, cash, nfa =>
    let curr := base
    let cogs := curr * (1 - margin)
    let gross_margin := curr * margin
    let personnel := salary_monthly * 12
    let ext_charges := rent_m * 12
    let ebitda := gross_margin - personnel - ext_charges
    let ebit := ebitda - amort
    let tax := if ebit > 0 then ebit * corp else 0
    let net_profit := ebit - tax
    let cash := cash + (net_profit + amort)
    let nfa := nfa - amort
    let nfa := if nfa < 0 then 0 else nfa
    { turnover := curr, cogs := -cogs, gross_margin := gross_margin,
      personnel := -personnel, rent_charges := -ext_charges,
      ebitda := ebitda, amortization := -amort, ebit := ebit,
      tax := -tax, net_profit := net_profit,
      cash_position := cash, net_assets := nfa } ::
      tableRows base margin salary_monthly rent_m amort corp n cash nfa

/-- The return tuple of `perform_calculations`. -/
structure EngineResult where
  yearly_breakeven : ℚ
  corp_tax_rate : ℚ
  graph_data : List ScenarioResult
  statement_table : List StatementRow
deriving DecidableEq, Repr

/-- `perform_calculations(region, industry, investment, owner_salary, rent,
nb_emp, emp_salary)`. A `None` investment is coerced to 0 (line 138). -/
def perform_calculations (region : Region) (industry : Industry)
    (investment : Option ℚ) (owner_salary rent nb_emp emp_salary : ℚ) :
    EngineResult :=
  let investment := investment.getD 0
  let margin_ratio := marginRatio industry
  let corp_tax_rate := corpTax region
  let mult := salary_multiplier region
  let amort := annual_amortization investment
  let salary_monthly := total_salary_cost_monthly owner_salary nb_emp emp_salary mult
  let rent_m := rent_monthly rent
  let fixed := total_yearly_fixed_costs salary_monthly rent_m amort
  let breakeven := yearly_breakeven_turnover fixed margin_ratio
  let base := breakeven
  let graph_data := scenariosList.map (fun s =>
    let ys := scenarioYears s.2 margin_ratio fixed corp_tax_rate amort 3
      true base (-investment)
    { name := s.1, profit := ys.map ScenYear.net_profit,
      cash := ys.map ScenYear.cumulative_cash })
  let table := tableRows base margin_ratio salary_monthly rent_m amort
    corp_tax_rate 3 (-investment) investment
  { yearly_breakeven := breakeven, corp_tax_rate := corp_tax_rate,
    graph_data := graph_data, statement_table := table }

/-- The year records the scenario loop computes for one `(name, rate)` entry
of `scenarios`, with the loop parameters exactly as `perform_calculations`
sets them up before PART A. -/
def scenarioYearsOf (region : Region) (ind : Industry) (investment : Option ℚ)
    (owner_salary rent nb_emp emp_salary : ℚ) (rate : ℚ) : List ScenYear :=
  let investment := investment.getD 0
  let amort := annual_amortization investment
  let salary_monthly :=
    total_salary_cost_monthly owner_salary nb_emp emp_salary
      (salary_multiplier region)
  let fixed := total_yearly_fixed_costs salary_monthly (rent_monthly rent) amort
  scenarioYears rate (marginRatio ind) fixed (corpTax region) amort 3 true
    (yearly_breakeven_turnover fixed (marginRatio ind)) (-investment)

/-- `graph_data` consists exactly of the name, net-profit projection and
cumulative-cash projection of `scenarioYearsOf` for each `scenarios` entry. -/
theorem graph_data_eq_scenarioYearsOf (region : Region) (ind : Industry)
    (inv : Option ℚ) (o r nb e : ℚ) :
    (perform_calculations region ind inv o r nb e).graph_data =
      scenariosList.map (fun s =>
        { name := s.1,
          profit := (scenarioYearsOf region ind inv o r nb e s.2).map
            ScenYear.net_profit,
          cash := (scenarioYearsOf region ind inv o r nb e s.2).map
            ScenYear.cumulative_cash }) := rfl

/-- In every year produced by the scenario loop, a non-positive EBIT gives a
zero tax, because the tax branch tests `ebit > 0`. -/
theorem scenarioYears_tax_floor (rate margin fixed corp amort : ℚ) :
    ∀ (n : Nat) (first : Bool) (curr cash : ℚ),
      ∀ y ∈ scenarioYears rate margin fixed corp amort n first curr cash,
        y.ebit ≤ 0 → y.tax = 0 := by
  intro n
  induction n with
  | zero => intro first curr cash y hy; simp [scenarioYears] at hy
  | succ k ih =>
    intro first curr cash y hy
    simp only [scenarioYears, List.mem_cons] at hy
    rcases hy with h | h
    · subst h
      intro hle
      simp only at hle ⊢
      rw [if_neg (not_lt.mpr hle)]
    · exact ih false _ _ y h

/-- In every row produced by the table loop, a non-positive EBIT gives a zero
recorded tax (the row stores the negated tax, and `-0 = 0`). -/
theorem tableRows_tax_floor (base margin sal rent_m amort corp : ℚ) :
    ∀ (n : Nat) (cash nfa : ℚ),
      ∀ row ∈ tableRows base margin sal rent_m amort corp n cash nfa,
        row.ebit ≤ 0 → row.tax = 0 := by
  intro n
  induction n with
  | zero => intro cash nfa row hr; simp [tableRows] at hr
  | succ k ih =>
    intro cash nfa row hr
    simp only [tableRows, List.mem_cons] at hr
    rcases hr with h | h
    · subst h
      intro hle
      simp only at hle ⊢
      rw [if_neg (not_lt.mpr hle), neg_zero]
    · exact ih _ _ row h

/-- Every row recorded by the table loop carries a non-negative net-asset
value: the loop floors `net_fixed_assets` at 0 before recording it. -/
theorem tableRows_assets_nonneg (base margin sal rent_m amort corp : ℚ) :
    ∀ (n : Nat) (cash nfa : ℚ),
      ∀ row ∈ tableRows base margin sal rent_m amort corp n cash nfa,
        0 ≤ row.net_assets := by
  intro n
  induction n with
  | zero => intro cash nfa row hr; simp [tableRows] at hr
  | succ k ih =>
    intro cash nfa row hr
    simp only [tableRows, List.mem_cons] at hr
    rcases hr with h | h
    · subst h
      simp only
      split
      · exact le_refl 0
      · next hlt => exact le_of_not_lt hlt
    · exact ih _ _ row h

/-- With growth rate 1, the scenario loop and the table loop produce the same
net-profit and cumulative-cash sequences from the same starting turnover and
cash, for any fuel: the two EBIT expressions agree by ring arithmetic and
everything downstream of EBIT is computed by the same formulas. -/
theorem stag_table_agree (margin sal rent_m amort corp : ℚ) :
    ∀ (n : Nat) (first : Bool) (base cash nfa : ℚ),
      (scenarioYears 1 margin (total_yearly_fixed_costs sal rent_m amort) corp
          amort n first base cash).map
          (fun y => (y.net_profit, y.cumulative_cash)) =
        (tableRows base margin sal rent_m amort corp n cash nfa).map
          (fun row => (row.net_profit, row.cash_position)) := by
  intro n
  induction n with
  | zero => intro first base cash nfa; rfl
  | succ k ih =>
    intro first base cash nfa
    simp only [scenarioYears, tableRows, List.map, mul_one, ite_self,
      total_yearly_fixed_costs]
    have he : base * margin - ((sal + rent_m) * 12 + amort) =
        base * margin - sal * 12 - rent_m * 12 - amort := by ring
    rw [he]
    simp only [List.cons.injEq, Prod.mk.injEq]
    refine ⟨trivial, ?_⟩
    have := ih false base
      (cash + (base * margin - sal * 12 - rent_m * 12 - amort -
        (if base * margin - sal * 12 - rent_m * 12 - amort > 0 then
          (base * margin - sal * 12 - rent_m * 12 - amort) * corp else 0) +
        amort))
      (if nfa - amort < 0 then 0 else nfa - amort)
    simpa [total_yearly_fixed_costs] using this

/-- Claim C1: for region us, industry retail, investment 20000, owner salary
2000, rent 3000, one employee at salary 2000, the engine computes
annual amortization 4000, monthly salary cost 5000, monthly rent 3600,
yearly fixed costs 107200 and break-even turnover 268000, using the
rate-table values 0.25 (salary tax), 0.21 (corporate tax) and 0.40
(retail margin). -/
theorem c1_concrete_scenario_us_retail :
    salaryTax Region.us = 0.25 ∧ corpTax Region.us = 0.21 ∧
    marginRatio Industry.retail = 0.40 ∧
    annual_amortization 20000 = 4000 ∧
    total_salary_cost_monthly 2000 1 2000 (salary_multiplier Region.us) =
      5000 ∧
    rent_monthly 3000 = 3600 ∧
    total_yearly_fixed_costs 5000 3600 4000 = 107200 ∧
    yearly_breakeven_turnover 107200 (marginRatio Industry.retail) = 268000 ∧
    (perform_calculations Region.us Industry.retail (some 20000) 2000 3000 1
      2000).yearly_breakeven = 268000 := by
  norm_num [perform_calculations, annual_amortization, total_salary_cost_monthly,
    rent_monthly, total_yearly_fixed_costs, yearly_breakeven_turnover,
    salary_multiplier, salaryTax, corpTax, marginRatio]

/-- Claim C2: for every input, Year-1 net profit and Year-1 cumulative cash of
the Stagnation scenario equal the Year-1 net profit and cash position of the
statement table, and Year-1 EBIT is exactly 0: the break-even turnover times
the margin ratio equals the yearly fixed costs, in both loop variants. -/
theorem c2_stagnation_year1_matches_table (region : Region) (ind : Industry)
    (inv : Option ℚ) (o r nb e : ℚ) :
    ((perform_calculations region ind inv o r nb e).graph_data.getD 0
        default).profit.getD 0 0 =
      ((perform_calculations region ind inv o r nb e).statement_table.getD 0
        default).net_profit ∧
    ((perform_calculations region ind inv o r nb e).graph_data.getD 0
        default).cash.getD 0 0 =
      ((perform_calculations region ind inv o r nb e).statement_table.getD 0
        default).cash_position ∧
    (perform_calculations region ind inv o r nb e).yearly_breakeven *
        marginRatio ind -
      total_yearly_fixed_costs
        (total_salary_cost_monthly o nb e (salary_multiplier region))
        (rent_monthly r) (annual_amortization (inv.getD 0)) = 0 ∧
    ((perform_calculations region ind inv o r nb e).statement_table.getD 0
        default).ebit = 0 := by
  have hm : marginRatio ind ≠ 0 := by cases ind <;> norm_num [marginRatio]
  have hcancel : ∀ F : ℚ, F / marginRatio ind * marginRatio ind = F :=
    fun F => div_mul_cancel₀ F hm
  simp only [perform_calculations, scenariosList, scenarioYears, tableRows,
    yearly_breakeven_turnover, total_yearly_fixed_costs, List.map, List.getD,
    List.head?, Option.getD_some]
  norm_num
  simp only [hcancel]
  ring_nf
  norm_num

/-- Claim C3: in every year of every scenario computed by the scenario loop,
and in every row of the statement table, a non-positive EBIT yields a tax of
exactly 0. -/
theorem c3_tax_floor (rate margin fixed corp amort : ℚ) (n : Nat)
    (first : Bool) (curr cash : ℚ) (region : Region) (ind : Industry)
    (inv : Option ℚ) (o r nb e : ℚ) :
    (∀ y ∈ scenarioYears rate margin fixed corp amort n first curr cash,
        y.ebit ≤ 0 → y.tax = 0) ∧
    (∀ row ∈ (perform_calculations region ind inv o r nb e).statement_table,
        row.ebit ≤ 0 → row.tax = 0) := by
  refine ⟨scenarioYears_tax_floor rate margin fixed corp amort n first curr
    cash, ?_⟩
  intro row hr
  exact tableRows_tax_floor _ _ _ _ _ _ 3 _ _ row hr

/-- Witness for C3: Year 2 of the Recession scenario on the C1 inputs has
EBIT equal to minus 5360 and tax 0, and Year 1 of the statement table on the
C1 inputs has EBIT 0 and tax 0. -/
theorem c3_tax_floor_witness :
    ((⟨254600, -5360, 0, -5360, -17360⟩ : ScenYear) ∈
        scenarioYears 0.95 0.4 107200 0.21 4000 3 true 268000 (-20000) ∧
      (⟨254600, -5360, 0, -5360, -17360⟩ : ScenYear).ebit ≤ 0 ∧
      (⟨254600, -5360, 0, -5360, -17360⟩ : ScenYear).tax = 0) ∧
    ((⟨268000, -160800, 107200, -60000, -43200, 4000, -4000, 0, 0, 0, -16000,
          16000⟩ : StatementRow) ∈
        (perform_calculations Region.us Industry.retail (some 20000) 2000 3000
          1 2000).statement_table ∧
      (⟨268000, -160800, 107200, -60000, -43200, 4000, -4000, 0, 0, 0, -16000,
          16000⟩ : StatementRow).ebit ≤ 0 ∧
      (⟨268000, -160800, 107200, -60000, -43200, 4000, -4000, 0, 0, 0, -16000,
          16000⟩ : StatementRow).tax = 0) := by
  have hmem1 : (⟨254600, -5360, 0, -5360, -17360⟩ : ScenYear) ∈
      scenarioYears 0.95 0.4 107200 0.21 4000 3 true 268000 (-20000) := by
    norm_num [scenarioYears]
  have hmem2 : (⟨268000, -160800, 107200, -60000, -43200, 4000, -4000, 0, 0, 0,
      -16000, 16000⟩ : StatementRow) ∈
      (perform_calculations Region.us Industry.retail (some 20000) 2000 3000
        1 2000).statement_table := by
    norm_num [perform_calculations, tableRows, annual_amortization,
      total_salary_cost_monthly, rent_monthly, total_yearly_fixed_costs,
      yearly_breakeven_turnover, salary_multiplier, salaryTax, corpTax,
      marginRatio, scenariosList, scenarioYears]
  refine ⟨⟨hmem1, by norm_num, ?_⟩, ⟨hmem2, by norm_num, ?_⟩⟩
  · exact (c3_tax_floor 0.95 0.4 107200 0.21 4000 3 true 268000 (-20000)
      Region.us Industry.retail (some 20000) 2000 3000 1 2000).1 _ hmem1
      (by norm_num)
  · exact (c3_tax_floor 0.95 0.4 107200 0.21 4000 3 true 268000 (-20000)
      Region.us Industry.retail (some 20000) 2000 3000 1 2000).2 _ hmem2
      (by norm_num)

/-- Counterexample to claim C4: invoked with the negative investment -1000
and the negative employee count -1, the engine does not reject the request:
it returns a fully populated result (3 statement rows, 3 scenarios) with the
break-even turnover 107500 computed by the ordinary formulas. -/
theorem c4_no_rejection_counterexample :
    (perform_calculations Region.us Industry.retail (some (-1000)) 2000 3000
      (-1) 2000).statement_table.length = 3 ∧
    (perform_calculations Region.us Industry.retail (some (-1000)) 2000 3000
      (-1) 2000).graph_data.length = 3 ∧
    (perform_calculations Region.us Industry.retail (some (-1000)) 2000 3000
      (-1) 2000).yearly_breakeven = 107500 := by
  refine ⟨rfl, rfl, ?_⟩
  norm_num [perform_calculations, annual_amortization,
    total_salary_cost_monthly, rent_monthly, total_yearly_fixed_costs,
    yearly_breakeven_turnover, salary_multiplier, salaryTax, marginRatio]

/-- Amended C4: the engine performs no input validation. A negative
investment together with a negative employee count is accepted and produces
a fully populated result (3 statement rows, 3 scenarios) whose break-even
turnover follows the ordinary formula, and a zero margin ratio can never
reach the break-even division because every sector margin in the table is
positive. -/
theorem c4_no_validation_full_result (region : Region) (ind : Industry)
    (inv o r nb e : ℚ) (hinv : inv < 0) (hnb : nb < 0) :
    (perform_calculations region ind (some inv) o r nb e).statement_table.length
        = 3 ∧
    (perform_calculations region ind (some inv) o r nb e).graph_data.length
        = 3 ∧
    (perform_calculations region ind (some inv) o r nb e).yearly_breakeven =
      yearly_breakeven_turnover
        (total_yearly_fixed_costs
          (total_salary_cost_monthly o nb e (salary_multiplier region))
          (rent_monthly r) (annual_amortization inv)) (marginRatio ind) ∧
    0 < marginRatio ind := by
  refine ⟨rfl, rfl, rfl, ?_⟩
  cases ind <;> norm_num [marginRatio]

/-- Witness for the amended C4 at investment -1000 and employee count -1. -/
theorem c4_no_validation_full_result_witness :
    (-1000 : ℚ) < 0 ∧ (-1 : ℚ) < 0 ∧
    ((perform_calculations Region.us Industry.retail (some (-1000)) 2000 3000
        (-1) 2000).statement_table.length = 3 ∧
      (perform_calculations Region.us Industry.retail (some (-1000)) 2000 3000
        (-1) 2000).graph_data.length = 3 ∧
      (perform_calculations Region.us Industry.retail (some (-1000)) 2000 3000
        (-1) 2000).yearly_breakeven =
        yearly_breakeven_turnover
          (total_yearly_fixed_costs
            (total_salary_cost_monthly 2000 (-1) 2000
              (salary_multiplier Region.us))
            (rent_monthly 3000) (annual_amortization (-1000)))
          (marginRatio Industry.retail) ∧
      0 < marginRatio Industry.retail) :=
  ⟨by norm_num, by norm_num,
    c4_no_validation_full_result Region.us Industry.retail (-1000) 2000 3000
      (-1) 2000 (by norm_num) (by norm_num)⟩

/-- Claim C5: with a non-negative investment, every row of the statement
table records a non-negative net-asset value, because the loop floors the
declining book value at 0. -/
theorem c5_net_assets_nonneg (region : Region) (ind : Industry)
    (inv o r nb e : ℚ) (h : 0 ≤ inv) :
    ∀ row ∈ (perform_calculations region ind (some inv) o r nb e).statement_table,
      0 ≤ row.net_assets := by
  intro row hr
  exact tableRows_assets_nonneg _ _ _ _ _ _ 3 _ _ row hr

/-- Witness for C5: on the C1 inputs the Year-1 statement row records the
net-asset value 16000, which is non-negative. -/
theorem c5_net_assets_nonneg_witness :
    (0 : ℚ) ≤ 20000 ∧
    (⟨268000, -160800, 107200, -60000, -43200, 4000, -4000, 0, 0, 0, -16000,
        16000⟩ : StatementRow) ∈
      (perform_calculations Region.us Industry.retail (some 20000) 2000 3000
        1 2000).statement_table ∧
    (0 : ℚ) ≤ (⟨268000, -160800, 107200, -60000, -43200, 4000, -4000, 0, 0, 0,
        -16000, 16000⟩ : StatementRow).net_assets := by
  have hmem : (⟨268000, -160800, 107200, -60000, -43200, 4000, -4000, 0, 0, 0,
      -16000, 16000⟩ : StatementRow) ∈
      (perform_calculations Region.us Industry.retail (some 20000) 2000 3000
        1 2000).statement_table := by
    norm_num [perform_calculations, tableRows, annual_amortization,
      total_salary_cost_monthly, rent_monthly, total_yearly_fixed_costs,
      yearly_breakeven_turnover, salary_multiplier, salaryTax, corpTax,
      marginRatio, scenariosList, scenarioYears]
  exact ⟨by norm_num, hmem,
    c5_net_assets_nonneg Region.us Industry.retail 20000 2000 3000 1 2000
      (by norm_num) _ hmem⟩

/-- Claim C6: with all other inputs equal, a larger non-negative investment
never decreases the break-even turnover. -/
theorem c6_breakeven_monotone_in_investment (region : Region) (ind : Industry)
    (o r nb e inv1 inv2 : ℚ) (h0 : 0 ≤ inv1) (h : inv1 ≤ inv2) :
    (perform_calculations region ind (some inv1) o r nb e).yearly_breakeven ≤
      (perform_calculations region ind (some inv2) o r nb e).yearly_breakeven := by
  cases ind <;>
    simp only [perform_calculations, yearly_breakeven_turnover,
      total_yearly_fixed_costs, annual_amortization, marginRatio,
      Option.getD_some] <;>
    · rw [div_le_div_iff_of_pos_right (by norm_num)]
      linarith

/-- Witness for C6: raising the investment from 0 to 20000 on the C1 inputs
does not decrease the break-even turnover. -/
theorem c6_breakeven_monotone_in_investment_witness :
    (0 : ℚ) ≤ 0 ∧ (0 : ℚ) ≤ 20000 ∧
    (perform_calculations Region.us Industry.retail (some 0) 2000 3000 1
        2000).yearly_breakeven ≤
      (perform_calculations Region.us Industry.retail (some 20000) 2000 3000 1
        2000).yearly_breakeven :=
  ⟨by norm_num, by norm_num,
    c6_breakeven_monotone_in_investment Region.us Industry.retail 2000 3000 1
      2000 0 20000 (by norm_num) (by norm_num)⟩

/-- Claim C7: the statement table uses the un-grown break-even turnover
identically for all 3 years: the turnover field of each row equals the
break-even turnover, with no growth rate applied in the table loop. -/
theorem c7_table_turnover_constant (region : Region) (ind : Industry)
    (inv : Option ℚ) (o r nb e : ℚ) :
    (perform_calculations region ind inv o r nb e).statement_table.map
        StatementRow.turnover =
      List.replicate 3
        (perform_calculations region ind inv o r nb e).yearly_breakeven := by
  simp [perform_calculations, tableRows, List.replicate]

/-- Claim C8: in the Recession scenario (rate 0.95), whenever the yearly
fixed costs are positive, the turnover of year i equals the break-even
turnover times 0.95 to the power i-1, and the three turnovers are strictly
decreasing. -/
theorem c8_recession_turnover_strictly_decreasing (region : Region)
    (ind : Industry) (inv : Option ℚ) (o r nb e : ℚ)
    (hf : 0 < total_yearly_fixed_costs
        (total_salary_cost_monthly o nb e (salary_multiplier region))
        (rent_monthly r) (annual_amortization (inv.getD 0))) :
    (scenarioYearsOf region ind inv o r nb e 0.95).map ScenYear.turnover =
      [(perform_calculations region ind inv o r nb e).yearly_breakeven *
          0.95 ^ 0,
       (perform_calculations region ind inv o r nb e).yearly_breakeven *
          0.95 ^ 1,
       (perform_calculations region ind inv o r nb e).yearly_breakeven *
          0.95 ^ 2] ∧
    (perform_calculations region ind inv o r nb e).yearly_breakeven *
        0.95 ^ 1 <
      (perform_calculations region ind inv o r nb e).yearly_breakeven *
        0.95 ^ 0 ∧
    (perform_calculations region ind inv o r nb e).yearly_breakeven *
        0.95 ^ 2 <
      (perform_calculations region ind inv o r nb e).yearly_breakeven *
        0.95 ^ 1 := by
  have hm : 0 < marginRatio ind := by cases ind <;> norm_num [marginRatio]
  have hB : 0 <
      (perform_calculations region ind inv o r nb e).yearly_breakeven := by
    simp only [perform_calculations, yearly_breakeven_turnover]
    exact div_pos hf hm
  refine ⟨?_, ?_, ?_⟩
  · simp only [scenarioYearsOf, scenarioYears, perform_calculations,
      List.map, yearly_breakeven_turnover]
    norm_num
    ring
  · simp only [perform_calculations] at hB ⊢
    norm_num
    linarith
  · simp only [perform_calculations] at hB ⊢
    norm_num
    nlinarith

/-- Witness for C8 at the C1 inputs, whose yearly fixed costs 107200 are
positive. -/
theorem c8_recession_turnover_strictly_decreasing_witness :
    0 < total_yearly_fixed_costs
        (total_salary_cost_monthly 2000 1 2000 (salary_multiplier Region.us))
        (rent_monthly 3000) (annual_amortization ((some (20000 : ℚ)).getD 0)) ∧
    ((scenarioYearsOf Region.us Industry.retail (some 20000) 2000 3000 1 2000
          0.95).map ScenYear.turnover =
        [(perform_calculations Region.us Industry.retail (some 20000) 2000
            3000 1 2000).yearly_breakeven * 0.95 ^ 0,
         (perform_calculations Region.us Industry.retail (some 20000) 2000
            3000 1 2000).yearly_breakeven * 0.95 ^ 1,
         (perform_calculations Region.us Industry.retail (some 20000) 2000
            3000 1 2000).yearly_breakeven * 0.95 ^ 2] ∧
      (perform_calculations Region.us Industry.retail (some 20000) 2000 3000 1
          2000).yearly_breakeven * 0.95 ^ 1 <
        (perform_calculations Region.us Industry.retail (some 20000) 2000 3000
          1 2000).yearly_breakeven * 0.95 ^ 0 ∧
      (perform_calculations Region.us Industry.retail (some 20000) 2000 3000 1
          2000).yearly_breakeven * 0.95 ^ 2 <
        (perform_calculations Region.us Industry.retail (some 20000) 2000 3000
          1 2000).yearly_breakeven * 0.95 ^ 1) := by
  have hf : 0 < total_yearly_fixed_costs
      (total_salary_cost_monthly 2000 1 2000 (salary_multiplier Region.us))
      (rent_monthly 3000) (annual_amortization ((some (20000 : ℚ)).getD 0)) := by
    norm_num [total_yearly_fixed_costs, total_salary_cost_monthly,
      rent_monthly, annual_amortization, salary_multiplier, salaryTax]
  exact ⟨hf, c8_recession_turnover_strictly_decreasing Region.us
    Industry.retail (some 20000) 2000 3000 1 2000 hf⟩

/-- Claim C9: a missing (None) investment is coerced to 0: the engine output
for a null investment is identical to the output for investment 0. -/
theorem c9_null_investment_defaults_to_zero (region : Region) (ind : Industry)
    (o r nb e : ℚ) :
    perform_calculations region ind none o r nb e =
      perform_calculations region ind (some 0) o r nb e := rfl

/-- Claim C10: the Stagnation scenario agrees with the statement table in all
3 years: the first entry of graph data is the Stagnation scenario, its
net-profit sequence equals the net-profit column of the table and its
cumulative-cash sequence equals the cash-position column of the table. -/
theorem c10_stagnation_matches_table_all_years (region : Region)
    (ind : Industry) (inv : Option ℚ) (o r nb e : ℚ) :
    ((perform_calculations region ind inv o r nb e).graph_data.getD 0
        default).name = "Stagnation" ∧
    ((perform_calculations region ind inv o r nb e).graph_data.getD 0
        default).profit =
      (perform_calculations region ind inv o r nb e).statement_table.map
        StatementRow.net_profit ∧
    ((perform_calculations region ind inv o r nb e).graph_data.getD 0
        default).cash =
      (perform_calculations region ind inv o r nb e).statement_table.map
        StatementRow.cash_position := by
  have h1 : (1.0 : ℚ) = 1 := by norm_num
  have key := stag_table_agree (marginRatio ind)
      (total_salary_cost_monthly o nb e (salary_multiplier region))
      (rent_monthly r) (annual_amortization (inv.getD 0)) (corpTax region) 3
      true
      (yearly_breakeven_turnover
        (total_yearly_fixed_costs
          (total_salary_cost_monthly o nb e (salary_multiplier region))
          (rent_monthly r) (annual_amortization (inv.getD 0)))
        (marginRatio ind))
      (-(inv.getD 0)) (inv.getD 0)
  have hp := congrArg (List.map Prod.fst) key
  have hc := congrArg (List.map Prod.snd) key
  simp only [List.map_map, Function.comp] at hp hc
  refine ⟨rfl, ?_, ?_⟩
  · simp only [perform_calculations, scenariosList, List.map, List.getD,
      List.head?, Option.getD_some, h1]
    exact hp
  · simp only [perform_calculations, scenariosList, List.map, List.getD,
      List.head?, Option.getD_some, h1]
    exact hc
